import Mathlib

/-!
Shallow embedding of the LF2 pipeline (queue consumer that samples restaurant
candidates from a search index, enriches them from DynamoDB, composes an email
and sends it through SES), together with theorems settling the frozen claims.

External services (the JSON decoder, the search index, the key-value store and
the delivery provider) are modelled as explicit oracle parameters; everything
the repository's own code computes is embedded as executable Lean functions.
-/

namespace LF2

/-! ## Python string primitives used by LF2.py -/

/-- Python `str.strip()` whitespace test (ASCII whitespace set). -/
def pyIsSpace (c : Char) : Bool :=
  c = ' ' || c = '\t' || c = '\n' || c = '\r' || c = Char.ofNat 11 || c = Char.ofNat 12

/-- Python `str.strip()`: drop leading and trailing whitespace. -/
def pyStrip (s : String) : String :=
  String.mk (((s.data.dropWhile pyIsSpace).reverse.dropWhile pyIsSpace).reverse)

/-- Helper for `pyTitle`: the boolean tracks whether the previous character was
alphabetic (Python up-cases an alphabetic character exactly when the previous
character is not alphabetic, and down-cases it otherwise). -/
def pyTitleAux : List Char → Bool → List Char
  | [], _ => []
  | c :: cs, prevAlpha =>
    (if c.isAlpha then (if prevAlpha then c.toLower else c.toUpper) else c)
      :: pyTitleAux cs c.isAlpha

/-- Python `str.title()` (ASCII). -/
def pyTitle (s : String) : String := String.mk (pyTitleAux s.data false)

/-- Python `str.lower()` (ASCII). -/
def pyLower (s : String) : String := String.mk (s.data.map Char.toLower)

/-! ## JSON-ish scalar values (for the dynamically typed `num_people` field) -/

/-- A decoded JSON scalar as it can appear in the `num_people` field. -/
inductive JVal where
  | null
  | str (s : String)
  | num (n : Int)
  deriving DecidableEq, Repr

/-- Python truthiness of a decoded JSON scalar (`if body.get("partySize"):`). -/
def jvalTruthy : JVal → Bool
  | .null => false
  | .str s => s ≠ ""
  | .num n => n ≠ 0

/-- Python `str()` / f-string rendering of a decoded JSON scalar. -/
def jvalToStr : JVal → String
  | .null => "None"
  | .str s => s
  | .num n => toString n

/-- Python `str()` of an optional string (`None` renders as the text `"None"`,
exactly as an f-string renders the Python value `None`). -/
def pyStrOpt : Option String → String
  | some s => s
  | none => "None"

/-! ## Calendar arithmetic for `datetime.strptime` / `strftime` -/

def isLeapYear (y : Nat) : Bool := (y % 4 = 0 && y % 100 ≠ 0) || y % 400 = 0

def daysInMonth (y m : Nat) : Nat :=
  if m = 2 then (if isLeapYear y then 29 else 28)
  else if m = 4 || m = 6 || m = 9 || m = 11 then 30
  else 31

def monthName : Nat → String
  | 1 => "January" | 2 => "February" | 3 => "March" | 4 => "April"
  | 5 => "May" | 6 => "June" | 7 => "July" | 8 => "August"
  | 9 => "September" | 10 => "October" | 11 => "November" | 12 => "December"
  | _ => ""

def daysBeforeMonth (y m : Nat) : Nat :=
  (List.range (m - 1)).foldl (fun acc i => acc + daysInMonth y (i + 1)) 0

/-- Proleptic-Gregorian ordinal of a date, with `0001-01-01` mapped to `1`
(the convention of Python's `date.toordinal`). -/
def toOrdinal (y m d : Nat) : Nat :=
  365 * (y - 1) + (y - 1) / 4 + (y - 1) / 400 + daysBeforeMonth y m + d - (y - 1) / 100

def weekdayName : Nat → String
  | 0 => "Monday" | 1 => "Tuesday" | 2 => "Wednesday" | 3 => "Thursday"
  | 4 => "Friday" | 5 => "Saturday" | 6 => "Sunday"
  | _ => ""

/-- `strftime("%A")`: `0001-01-01` was a Monday in the proleptic Gregorian
calendar used by Python's `datetime`. -/
def dayOfWeekName (y m d : Nat) : String := weekdayName ((toOrdinal y m d + 6) % 7)

/-- Split a character list on a separator character (the semantics of
Python's `str.split(sep)` for a single-character separator, which is how
`strptime` consumes the literal separators of its format). -/
def splitCharsAux (sep : Char) : List Char → List Char → List (List Char)
  | [], acc => [acc.reverse]
  | c :: cs, acc =>
    if c = sep then acc.reverse :: splitCharsAux sep cs []
    else splitCharsAux sep cs (c :: acc)

def splitChars (sep : Char) (l : List Char) : List (List Char) :=
  splitCharsAux sep l []

/-- Read a non-empty all-digit character list as a natural number. -/
def charsToNat? (l : List Char) : Option Nat :=
  if l ≠ [] && l.all (fun c => c.isDigit) then
    some (l.foldl (fun acc c => acc * 10 + (c.toNat - 48)) 0)
  else none

/-- `datetime.strptime(s, "%Y-%m-%d")`, returning `(year, month, day)` on
success. The `%Y` pattern matches exactly four digits, `%m` one or two digits
valued 1–12, `%d` one or two digits valued 1–31; the `datetime` constructor
then rejects a day beyond the month's length and the year 0. -/
def parseDate (s : String) : Option (Nat × Nat × Nat) :=
  match splitChars '-' s.data with
  | [ys, ms, ds] =>
    match charsToNat? ys, charsToNat? ms, charsToNat? ds with
    | some y, some m, some d =>
      if ys.length = 4 && ms.length ≤ 2 && ds.length ≤ 2 &&
         1 ≤ m && m ≤ 12 && 1 ≤ d && d ≤ daysInMonth y m && 1 ≤ y
      then some (y, m, d) else none
    | _, _, _ => none
  | _ => none

/-- `strftime("%A, %B %-d, %Y")`, e.g. `"Thursday, October 9, 2025"`. -/
def fmtDate : Nat × Nat × Nat → String
  | (y, m, d) => dayOfWeekName y m d ++ ", " ++ monthName m ++ " " ++ toString d ++ ", " ++ toString y

/-- `datetime.strptime(s, "%H:%M")`, returning `(hour, minute)` on success.
`%H` matches one or two digits valued 0–23, `%M` one or two digits 0–59. -/
def parseTime (s : String) : Option (Nat × Nat) :=
  match splitChars ':' s.data with
  | [hs, ms] =>
    match charsToNat? hs, charsToNat? ms with
    | some h, some m =>
      if hs.length ≤ 2 && ms.length ≤ 2 && h ≤ 23 && m ≤ 59
      then some (h, m) else none
    | _, _ => none
  | _ => none

/-- `strftime("%-I %p").lower()`: 12-hour hour with no leading zero, then a
lowercase am/pm marker; the minutes are not rendered. -/
def fmtTime : Nat × Nat → String
  | (h, _) =>
    (toString (if h % 12 = 0 then 12 else h % 12)) ++ " " ++ (if h < 12 then "am" else "pm")

/-! ## Data model -/

/-- An enriched restaurant record as built by `ddb_get_many` (every projected
attribute may be absent from the DynamoDB item, hence the options). -/
structure EntityRecord where
  businessID : Option String
  name : Option String
  address : Option String
  deriving DecidableEq, Repr

/-- The `enriched` dictionary handed to `format_email`. -/
structure EmailBody where
  cuisine : String
  partySize : JVal
  date : Option String
  time : Option String
  results : List EntityRecord
  deriving Repr

/-! ## Message composer (`format_email`, LF2.py lines 94–134) -/

/-- Python `sep.join(parts)`. -/
def pyJoin (sep : String) : List String → String
  | [] => ""
  | [x] => x
  | x :: y :: xs => x ++ sep ++ pyJoin sep (y :: xs)

/-- Truthiness of an optional string field (`if body.get("date"):` is taken
exactly when the field is present and non-empty). -/
def fieldPresent : Option String → Bool
  | none => false
  | some s => s != ""

/-- The `when_parts` list of LF2.py lines 102–117: an entry for the date
(formatted, or raw on parse failure) and an entry for the time (`"at …"`),
each only when the corresponding field is truthy. -/
def datePart (b : EmailBody) : List String :=
  match b.date with
  | none => []
  | some s =>
    if s = "" then []
    else [match parseDate s with
          | some ymd => fmtDate ymd
          | none => s]

def timePart (b : EmailBody) : List String :=
  match b.time with
  | none => []
  | some s =>
    if s = "" then []
    else [match parseTime s with
          | some hm => "at " ++ fmtTime hm
          | none => "at " ++ s]

def whenParts (b : EmailBody) : List String :=
  datePart b ++ timePart b

/-- The intro line of LF2.py lines 96–122. -/
def introLine (b : EmailBody) : String :=
  let base := "Hello! Here are my " ++ pyTitle b.cuisine ++ " restaurant suggestions"
  let base := if jvalTruthy b.partySize then base ++ " for " ++ jvalToStr b.partySize ++ " people" else base
  let wp := whenParts b
  let base := if wp.isEmpty then base else base ++ ", for " ++ pyJoin " " wp
  base ++ ":"

/-- One numbered restaurant line (LF2.py lines 127–129): the 1-based index,
the f-string rendering of the `Name` value, and the address clause exactly
when the `Address` value is truthy. -/
def entityLine (n : Nat) (r : EntityRecord) : String :=
  toString n ++ ". " ++ pyStrOpt r.name ++
    (match r.address with
     | some a => if a = "" then "" else ", located at " ++ a
     | none => "")

/-- The restaurant lines produced by `enumerate(results, start=1)`. -/
def entityLines (n : Nat) : List EntityRecord → List String
  | [] => []
  | r :: rs => entityLine n r :: entityLines (n + 1) rs

/-- All lines accumulated by `format_email` before the final join. -/
def emailLines (b : EmailBody) : List String :=
  introLine b :: (entityLines 1 b.results ++ ["\nEnjoy your meal!"])

/-- `format_email` (LF2.py lines 94–134): `"\n".join(lines)`. -/
def format_email (b : EmailBody) : String :=
  pyJoin "\n" (emailLines b)

/-- The subject line built at LF2.py line 199. -/
def subjectFor (cuisine : String) : String :=
  pyTitle cuisine ++ " restaurant suggestions"

/-! ## Candidate sampling (`os_random_ids_by_cuisine` call site, LF2.py 167–177) -/

/-- The `size` argument the orchestrator passes to the search query
(`NUM_RESULTS * 2` at LF2.py line 169). -/
def osRequestSize (numResults : Nat) : Nat := numResults * 2

/-- Boolean list membership (Python `in` on a list of seen keys). -/
def memB (a : String) : List String → Bool
  | [] => false
  | x :: xs => a == x || memB a xs

/-- `list(dict.fromkeys(ids))` with an accumulator of already-seen keys:
keep each identifier's first occurrence, in order. -/
def dedupAux : List String → List String → List String
  | [], _ => []
  | x :: xs, seen =>
    if memB x seen then dedupAux xs seen else x :: dedupAux xs (x :: seen)

/-- `list(dict.fromkeys(ids))` (LF2.py line 174). -/
def dedupKeepFirst (l : List String) : List String := dedupAux l []

/-- Specification-side description of first-occurrence deduplication, written
from the spec's words: keep an element, delete every later occurrence of it,
repeat on the rest. -/
def firstOccurrences : List String → List String
  | [] => []
  | x :: xs => x :: firstOccurrences (xs.filter (fun a => a != x))
  termination_by l => l.length
  decreasing_by
    simp only [List.length_cons]
    exact Nat.lt_succ_of_le (List.length_filter_le _ _)

/-- The sampling stage at LF2.py line 174: deduplicate the identifiers
returned by the search, then truncate to `NUM_RESULTS`. -/
def sampleStage (ids : List String) (numResults : Nat) : List String :=
  (dedupKeepFirst ids).take numResults

/-! ## Detail fetcher (`ddb_get_many`, LF2.py lines 66–92) -/

/-- The projected attributes a DynamoDB item can carry back (`BusinessID`,
`Name`, `Address`), each possibly absent. -/
structure DdbItem where
  businessID : Option String
  name : Option String
  address : Option String
  deriving DecidableEq, Repr

/-- A DynamoDB table state: each identifier either has an item (its `Name`
and `Address` attribute values, possibly absent) or no item. -/
def DdbStore := String → Option (Option String × Option String)

/-- The items a `batch_get_item` call returns for the requested keys: one
item per key present in the table, carrying the projected attributes. -/
def batchGetItems (store : DdbStore) (keys : List String) : List DdbItem :=
  keys.filterMap fun bid => (store bid).map fun p => ⟨some bid, p.1, p.2⟩

/-- Python `out[bid] = v`: overwrite in place if the key exists, else append. -/
def pyDictInsert (d : List (Option String × EntityRecord)) (k : Option String)
    (v : EntityRecord) : List (Option String × EntityRecord) :=
  if d.any (fun p => p.1 = k) then d.map (fun p => if p.1 = k then (k, v) else p)
  else d ++ [(k, v)]

/-- The result-assembly loop of `ddb_get_many` (LF2.py lines 82–92). -/
def ddbBuildOut (items : List DdbItem) : List (Option String × EntityRecord) :=
  items.foldl (fun out it => pyDictInsert out it.businessID ⟨it.businessID, it.name, it.address⟩) []

/-- `ddb_get_many` (LF2.py lines 66–92), given the table state for a
successful transport. The first component counts the `batch_get_item`
transport calls performed (zero when the identifier list is empty, since the
function returns early; otherwise exactly one batched call). -/
def ddb_get_many (store : DdbStore) (business_ids : List String) :
    Nat × List (Option String × EntityRecord) :=
  if business_ids.isEmpty then (0, [])
  else (1, ddbBuildOut (batchGetItems store business_ids))

/-! ## Delivery client (`send_email`, LF2.py lines 136–150) -/

/-- The outcome of the `ses.send_email` provider call: either the provider
accepts the message (returning a message identifier) or raises a
`ClientError` carrying an error message. -/
inductive SesResult where
  | ok (messageId : String)
  | clientError (errMessage : String)
  deriving DecidableEq, Repr

/-- `send_email` (LF2.py lines 136–150): `True` when the provider accepted,
and a `ClientError` is caught and converted to `False`. -/
def send_email (callResult : SesResult) : Bool :=
  match callResult with
  | .ok _ => true
  | .clientError _ => false

/-! ## Orchestrator (`process_one_message` / `lambda_handler`, LF2.py 153–231) -/

/-- The decoded JSON payload of a queued request (§6 inbound message). -/
structure Payload where
  cuisine : Option String
  email : Option String
  num_people : JVal
  dining_date : Option String
  dining_time : Option String

/-- One SQS message as seen by the handler. `crashes` models an uncaught
exception raised while processing this message (caught by the handler's
per-message `try`/`except`). -/
structure Msg where
  body : Option String
  receiptHandle : String
  crashes : Bool

/-- The terminal outcome taxonomy of spec §4.6. -/
inductive Outcome where
  | Delivered
  | DiscardMalformed
  | DiscardNoResults
  | TransientFailure
  deriving DecidableEq, Repr

/-- The external collaborators of one invocation, as oracles. -/
structure Env where
  /-- `NUM_RESULTS` (environment variable, default 3). -/
  numResults : Nat
  /-- `json.loads`, as a possibly failing decoder of message bodies. -/
  jsonParse : String → Option Payload
  /-- `os_random_ids_by_cuisine cuisine size`: the identifier list extracted
  from the search response, or an exception. -/
  search : String → Nat → Except Unit (List String)
  /-- Whether the DynamoDB transport call succeeds. -/
  storeUp : Bool
  /-- The DynamoDB table state (used when the transport succeeds). -/
  store : DdbStore
  /-- `ses.send_email toAddr subject text`: the provider's response. -/
  send : String → String → String → SesResult

/-- `msg.get("Body") or "{}"` (LF2.py line 154): a missing or empty body
falls back to the empty JSON object text. -/
def rawBody (msg : Msg) : String :=
  match msg.body with
  | some s => if s = "" then "\x7b\x7d" else s
  | none => "\x7b\x7d"

/-- `process_one_message` (LF2.py lines 153–208), classified into the spec's
outcome taxonomy: each `return True` in the source is a discard or delivery
outcome and each `return False` a transient failure, following the source's
own comments branch by branch. -/
def processOutcome (env : Env) (msg : Msg) : Outcome :=
  match env.jsonParse (rawBody msg) with
  | none => .TransientFailure
  | some payload =>
    let cuisine := pyLower (pyStrip (payload.cuisine.getD ""))
    let email := pyStrip (payload.email.getD "")
    if cuisine = "" || email = "" then .DiscardMalformed
    else
      match env.search cuisine (osRequestSize env.numResults) with
      | .error _ => .TransientFailure
      | .ok rawIds =>
        let ids := sampleStage rawIds env.numResults
        if ids.isEmpty then .DiscardNoResults
        else if !env.storeUp then .TransientFailure
        else
          let details := (ddb_get_many env.store ids).2
          let results := ids.filterMap (fun i => details.lookup (some i))
          if results.isEmpty then .DiscardNoResults
          else
            let enriched : EmailBody :=
              { cuisine := cuisine, partySize := payload.num_people,
                date := payload.dining_date, time := payload.dining_time,
                results := results }
            let subject := subjectFor cuisine
            let text := format_email enriched
            if send_email (env.send email subject text) then .Delivered
            else .TransientFailure

/-- The acknowledgment policy: which outcomes make `process_one_message`
return `True` (so that the handler deletes the message). -/
def ackOutcome : Outcome → Bool
  | .Delivered => true
  | .DiscardMalformed => true
  | .DiscardNoResults => true
  | .TransientFailure => false

/-- The boolean actually returned by `process_one_message`. -/
def process_one_message (env : Env) (msg : Msg) : Bool :=
  ackOutcome (processOutcome env msg)

/-- `MaxNumberOfMessages=10` at LF2.py line 213. -/
def maxBatchSize : Nat := 10

/-- The value `lambda_handler` returns, together with the receipt handles it
passed to `sqs.delete_message`. -/
structure HandlerResult where
  ok : Bool
  processed : Nat
  deleted : List String
  deriving Repr

/-- Whether the handler's per-message loop body ends with `ok = True` for a
message: no uncaught exception, and `process_one_message` returned `True`. -/
def handlerAcks (env : Env) (m : Msg) : Bool :=
  !m.crashes && process_one_message env m

/-- `lambda_handler` (LF2.py lines 210–231) applied to the received batch:
every message whose processing ends with `ok = True` is deleted and counted;
a per-message exception is caught, leaving `ok = False` for that message. -/
def lambda_handler (env : Env) (msgs : List Msg) : HandlerResult :=
  if msgs.isEmpty then { ok := true, processed := 0, deleted := [] }
  else
    let acked := msgs.filter (handlerAcks env)
    { ok := true, processed := acked.length, deleted := acked.map (·.receiptHandle) }

/-! ## Supporting lemmas -/

theorem pyJoin_cons (sep x : String) (l : List String) (h : l ≠ []) :
    pyJoin sep (x :: l) = x ++ sep ++ pyJoin sep l := by
  cases l with
  | nil => exact absurd rfl h
  | cons y ys => rfl

theorem entityLines_length (n : Nat) (rs : List EntityRecord) :
    (entityLines n rs).length = rs.length := by
  induction rs generalizing n with
  | nil => rfl
  | cons r rs ih => simp [entityLines, ih]

theorem entityLines_getElem? (n i : Nat) (rs : List EntityRecord) :
    (entityLines n rs)[i]? = (rs[i]?).map (entityLine (n + i)) := by
  induction rs generalizing n i with
  | nil => simp [entityLines]
  | cons r rs ih =>
    cases i with
    | zero => simp [entityLines]
    | succ j =>
      have h : n + 1 + j = n + (j + 1) := by omega
      simp only [entityLines, List.getElem?_cons_succ]
      rw [ih (n + 1) j, h]

theorem introLine_decomp (b : EmailBody) :
    introLine b =
      "Hello! Here are my " ++ pyTitle b.cuisine ++ " restaurant suggestions" ++
      (if jvalTruthy b.partySize then " for " ++ jvalToStr b.partySize ++ " people" else "") ++
      (if (whenParts b).isEmpty then "" else ", for " ++ pyJoin " " (whenParts b)) ++ ":" := by
  unfold introLine
  cases h1 : jvalTruthy b.partySize <;> cases h2 : (whenParts b).isEmpty <;>
    simp [h1, h2, ← String.append_assoc]

theorem format_email_decomp (b : EmailBody) :
    format_email b =
      introLine b ++ "\n" ++ pyJoin "\n" (entityLines 1 b.results ++ ["\nEnjoy your meal!"]) := by
  unfold format_email emailLines
  apply pyJoin_cons
  simp

/-! ## Claim theorems -/

/-- C9: `send_email` returns a boolean that is `true` exactly when the
delivery provider accepts the message; a provider-level rejection
(`ClientError`) is caught and converted to `false`, never propagated. -/
theorem send_email_bool_contract (r : SesResult) :
    (send_email r = true ↔ ∃ mid, r = SesResult.ok mid) ∧
    (∀ e, send_email (SesResult.clientError e) = false) := by
  constructor
  · cases r with
    | ok mid => simp [send_email]
    | clientError e => simp [send_email]
  · intro e
    rfl

/-- C10: the intro carries the suffix `" for <N> people"` exactly when the
party-size value is Python-truthy, rendered by string conversion with no
numeric validation: the string `"0"` and any non-numeric string are truthy
and rendered verbatim, while the number `0`, the empty string and `null`
are falsy and omit the suffix. -/
theorem partySize_suffix_truthiness (b : EmailBody) :
    (∃ t, introLine b =
      "Hello! Here are my " ++ pyTitle b.cuisine ++ " restaurant suggestions" ++
        (if jvalTruthy b.partySize then " for " ++ jvalToStr b.partySize ++ " people" else "") ++ t) ∧
    jvalTruthy (JVal.str "0") = true ∧
    jvalToStr (JVal.str "0") = "0" ∧
    jvalTruthy (JVal.str "zero people") = true ∧
    jvalToStr (JVal.str "zero people") = "zero people" ∧
    jvalTruthy (JVal.num 0) = false ∧
    jvalTruthy (JVal.str "") = false ∧
    jvalTruthy JVal.null = false := by
  refine ⟨⟨(if (whenParts b).isEmpty then "" else ", for " ++ pyJoin " " (whenParts b)) ++ ":", ?_⟩,
    by decide, by decide, by decide, by decide, by decide, by decide, by decide⟩
  rw [introLine_decomp b, String.append_assoc]

/-- C7 counterexample: an entity record whose display name is missing is
rendered with the literal placeholder text `"None"` in the composed message
(Python's f-string rendering of `None`), contradicting the claim that a
missing optional field never renders as placeholder text. -/
theorem missing_name_renders_placeholder :
    format_email { cuisine := "thai", partySize := JVal.null, date := none, time := none,
                   results := [{ businessID := some "b1", name := none, address := none }] } =
      "Hello! Here are my Thai restaurant suggestions:\n1. None\n\nEnjoy your meal!" := by
  rfl

/-- C7 amended: a missing/null postal address renders as absent (the
`", located at …"` clause is omitted), but a missing/null display name is
rendered by string conversion and appears as the literal text `"None"`. -/
theorem optional_field_rendering (n : Nat) (r : EntityRecord) :
    (r.address = none → entityLine n r = toString n ++ ". " ++ pyStrOpt r.name) ∧
    (r.name = none → ∃ t, entityLine n r = toString n ++ ". " ++ "None" ++ t) := by
  constructor
  · intro h
    simp [entityLine, h]
  · intro h
    refine ⟨(match r.address with
             | some a => if a = "" then "" else ", located at " ++ a
             | none => ""), ?_⟩
    simp [entityLine, h, pyStrOpt]

/-- C7 amended, witness: both parts evaluated on a record with no name and
no address. -/
theorem optional_field_rendering_witness :
    (entityLine 1 { businessID := some "b1", name := none, address := none } =
      toString 1 ++ ". " ++ pyStrOpt none) ∧
    (∃ t, entityLine 1 { businessID := some "b1", name := none, address := none } =
      toString 1 ++ ". " ++ "None" ++ t) :=
  ⟨(optional_field_rendering 1 _).1 rfl, (optional_field_rendering 1 _).2 rfl⟩

set_option maxRecDepth 8192 in
/-- C3 counterexample: for the category `"italian"` the code's subject is
`"Italian restaurant suggestions"`, not `"Italian suggestions"`, and the
composed body does not begin with `"Here are my"` (its first characters are
`"Hello! Here"`). -/
theorem subject_intro_counterexample :
    subjectFor "italian" ≠ "Italian suggestions" ∧
    (format_email { cuisine := "italian", partySize := JVal.null, date := none,
                    time := none, results := [] }).data.take 11 ≠ "Here are my".data := by
  constructor
  · decide
  · decide

set_option maxRecDepth 65536 in
/-- C3 amended: the subject equals `"<C title-cased> restaurant suggestions"`
and the body begins with `"Hello! Here are my <C title-cased> restaurant
suggestions"`, extended by `" for <N> people"` exactly when the party size is
truthy and by `", for <date part> [at <time part>]"` exactly when the date
and/or time field is present (non-empty); checked concretely on the
end-to-end scenario payload. -/
theorem subject_and_intro_shape (b : EmailBody) :
    subjectFor b.cuisine = pyTitle b.cuisine ++ " restaurant suggestions" ∧
    (∃ t, format_email b =
      "Hello! Here are my " ++ pyTitle b.cuisine ++ " restaurant suggestions" ++
        (if jvalTruthy b.partySize then " for " ++ jvalToStr b.partySize ++ " people" else "") ++
        (if (whenParts b).isEmpty then "" else ", for " ++ pyJoin " " (whenParts b)) ++
        ":" ++ t) ∧
    ((whenParts b).isEmpty = true ↔
      (fieldPresent b.date = false ∧ fieldPresent b.time = false)) ∧
    format_email { cuisine := "italian", partySize := JVal.str "2",
                   date := some "2025-10-09", time := some "19:00",
                   results := [{ businessID := some "id1", name := some "Trattoria",
                                 address := some "1 Main St" },
                               { businessID := some "id3", name := some "Luigi's",
                                 address := none }] } =
      "Hello! Here are my Italian restaurant suggestions for 2 people, for Thursday, October 9, 2025 at 7 pm:\n1. Trattoria, located at 1 Main St\n2. Luigi's\n\nEnjoy your meal!" := by
  refine ⟨rfl, ⟨"\n" ++ pyJoin "\n" (entityLines 1 b.results ++ ["\nEnjoy your meal!"]), ?_⟩, ?_, by decide⟩
  · rw [format_email_decomp b, introLine_decomp b]
    exact String.append_assoc _ _ _
  · cases hd : b.date with
    | none =>
      cases ht : b.time with
      | none => simp [whenParts, datePart, timePart, fieldPresent, hd, ht]
      | some ts =>
        by_cases hts : ts = "" <;>
          simp [whenParts, datePart, timePart, fieldPresent, hd, ht, hts]
    | some ds =>
      cases ht : b.time with
      | none =>
        by_cases hds : ds = "" <;>
          simp [whenParts, datePart, timePart, fieldPresent, hd, ht, hds]
      | some ts =>
        by_cases hds : ds = "" <;> by_cases hts : ts = "" <;>
          simp [whenParts, datePart, timePart, fieldPresent, hd, ht, hds, hts]

/-- C5: the composed body's listing has exactly one line per supplied entity,
in input order: line `i+1` of the message (0-indexed lines; line 0 is the
intro) is the entity at index `i`, rendered with its 1-based index and name,
with the `", located at <address>"` clause appended exactly when the address
is present. -/
theorem listing_one_line_per_entity (b : EmailBody) (i : Nat) (r : EntityRecord)
    (h : b.results[i]? = some r) :
    (emailLines b).length = b.results.length + 2 ∧
    (emailLines b)[i + 1]? = some (entityLine (i + 1) r) ∧
    (∀ a, r.address = some a → a ≠ "" →
      entityLine (i + 1) r =
        toString (i + 1) ++ ". " ++ pyStrOpt r.name ++ ", located at " ++ a) ∧
    (r.address = none →
      entityLine (i + 1) r = toString (i + 1) ++ ". " ++ pyStrOpt r.name) := by
  have hi : i < b.results.length := by
    rcases List.getElem?_eq_some.mp h with ⟨hlt, _⟩
    exact hlt
  refine ⟨?_, ?_, ?_, ?_⟩
  · simp [emailLines, entityLines_length]
  · calc (emailLines b)[i + 1]?
        = (entityLines 1 b.results ++ ["\nEnjoy your meal!"])[i]? := by
          simp [emailLines]
      _ = (entityLines 1 b.results)[i]? := by
          apply List.getElem?_append_left
          rw [entityLines_length]
          exact hi
      _ = (b.results[i]?).map (entityLine (1 + i)) := entityLines_getElem? 1 i _
      _ = some (entityLine (i + 1) r) := by
          rw [h, Nat.add_comm 1 i]
          rfl
  · intro a ha hane
    simp [entityLine, ha, hane, ← String.append_assoc]
  · intro ha
    simp [entityLine, ha]

/-- C5 witness: the listing facts evaluated on a one-entity body. -/
theorem listing_one_line_per_entity_witness :
    (({ cuisine := "japanese", partySize := JVal.null, date := none, time := none,
        results := [{ businessID := some "id9", name := some "Sushi Go",
                      address := some "9 Elm St" }] } : EmailBody).results[0]? =
      some { businessID := some "id9", name := some "Sushi Go", address := some "9 Elm St" }) ∧
    ((emailLines { cuisine := "japanese", partySize := JVal.null, date := none, time := none,
                   results := [{ businessID := some "id9", name := some "Sushi Go",
                                 address := some "9 Elm St" }] }).length =
      ({ cuisine := "japanese", partySize := JVal.null, date := none, time := none,
         results := [{ businessID := some "id9", name := some "Sushi Go",
                       address := some "9 Elm St" }] } : EmailBody).results.length + 2 ∧
     (emailLines { cuisine := "japanese", partySize := JVal.null, date := none, time := none,
                   results := [{ businessID := some "id9", name := some "Sushi Go",
                                 address := some "9 Elm St" }] })[0 + 1]? =
      some (entityLine (0 + 1) { businessID := some "id9", name := some "Sushi Go",
                                 address := some "9 Elm St" }) ∧
     (∀ a, ({ businessID := some "id9", name := some "Sushi Go",
              address := some "9 Elm St" } : EntityRecord).address = some a → a ≠ "" →
       entityLine (0 + 1) { businessID := some "id9", name := some "Sushi Go",
                            address := some "9 Elm St" } =
         toString (0 + 1) ++ ". " ++
           pyStrOpt ({ businessID := some "id9", name := some "Sushi Go",
                       address := some "9 Elm St" } : EntityRecord).name ++
           ", located at " ++ a) ∧
     (({ businessID := some "id9", name := some "Sushi Go",
         address := some "9 Elm St" } : EntityRecord).address = none →
       entityLine (0 + 1) { businessID := some "id9", name := some "Sushi Go",
                            address := some "9 Elm St" } =
         toString (0 + 1) ++ ". " ++
           pyStrOpt ({ businessID := some "id9", name := some "Sushi Go",
                       address := some "9 Elm St" } : EntityRecord).name)) :=
  ⟨by decide, listing_one_line_per_entity _ 0 _ (by decide)⟩

theorem datePart_shape (b : EmailBody) : datePart b = [] ∨ ∃ x, datePart b = [x] := by
  unfold datePart
  cases b.date with
  | none => exact Or.inl rfl
  | some s =>
    by_cases hs : s = ""
    · exact Or.inl (by simp [hs])
    · exact Or.inr ⟨(match parseDate s with
                     | some ymd => fmtDate ymd
                     | none => s), by simp [hs]⟩

theorem append_colon_nl (a : String) : a ++ ":" ++ "\n" = a ++ ":\n" := by
  rw [String.append_assoc]
  rfl

theorem append_for_at (a : String) : a ++ ", for " ++ "at " = a ++ ", for at " := by
  rw [String.append_assoc]
  rfl

/-- C6: `compose` is total on string-valued date/time fields, with literal
fallback: a date string that fails `strptime("%Y-%m-%d")` appears verbatim in
the body, and a time string that fails `strptime("%H:%M")` appears as
`"at <raw string>"`. -/
theorem compose_malformed_fallback (b : EmailBody) (ds ts : String) :
    (b.date = some ds → ds ≠ "" → parseDate ds = none →
      ∃ u v, format_email b = u ++ ds ++ v) ∧
    (b.time = some ts → ts ≠ "" → parseTime ts = none →
      ∃ u v, format_email b = u ++ ("at " ++ ts) ++ v) := by
  constructor
  · intro hd hdne hdp
    have hdl : datePart b = [ds] := by simp [datePart, hd, hdne, hdp]
    have hwp : whenParts b = ds :: timePart b := by simp [whenParts, hdl]
    cases htp : timePart b with
    | nil =>
      refine ⟨"Hello! Here are my " ++ pyTitle b.cuisine ++ " restaurant suggestions" ++
          (if jvalTruthy b.partySize then " for " ++ jvalToStr b.partySize ++ " people" else "") ++
          ", for ",
        ":" ++ "\n" ++ pyJoin "\n" (entityLines 1 b.results ++ ["\nEnjoy your meal!"]), ?_⟩
      rw [format_email_decomp b, introLine_decomp b, hwp, htp]
      simp [pyJoin, ← String.append_assoc, append_colon_nl, append_for_at]
    | cons y ys =>
      refine ⟨"Hello! Here are my " ++ pyTitle b.cuisine ++ " restaurant suggestions" ++
          (if jvalTruthy b.partySize then " for " ++ jvalToStr b.partySize ++ " people" else "") ++
          ", for ",
        " " ++ pyJoin " " (y :: ys) ++ ":" ++ "\n" ++
          pyJoin "\n" (entityLines 1 b.results ++ ["\nEnjoy your meal!"]), ?_⟩
      rw [format_email_decomp b, introLine_decomp b, hwp, htp]
      simp [pyJoin_cons, ← String.append_assoc, append_colon_nl, append_for_at]
  · intro ht htne htp
    have htl : timePart b = ["at " ++ ts] := by simp [timePart, ht, htne, htp]
    rcases datePart_shape b with h0 | ⟨x, h0⟩
    · have hwp : whenParts b = ["at " ++ ts] := by simp [whenParts, h0, htl]
      refine ⟨"Hello! Here are my " ++ pyTitle b.cuisine ++ " restaurant suggestions" ++
          (if jvalTruthy b.partySize then " for " ++ jvalToStr b.partySize ++ " people" else "") ++
          ", for ",
        ":" ++ "\n" ++ pyJoin "\n" (entityLines 1 b.results ++ ["\nEnjoy your meal!"]), ?_⟩
      rw [format_email_decomp b, introLine_decomp b, hwp]
      simp [pyJoin, ← String.append_assoc, append_colon_nl, append_for_at]
    · have hwp : whenParts b = [x, "at " ++ ts] := by simp [whenParts, h0, htl]
      refine ⟨"Hello! Here are my " ++ pyTitle b.cuisine ++ " restaurant suggestions" ++
          (if jvalTruthy b.partySize then " for " ++ jvalToStr b.partySize ++ " people" else "") ++
          ", for " ++ x ++ " ",
        ":" ++ "\n" ++ pyJoin "\n" (entityLines 1 b.results ++ ["\nEnjoy your meal!"]), ?_⟩
      rw [format_email_decomp b, introLine_decomp b, hwp]
      simp [pyJoin, ← String.append_assoc, append_colon_nl, append_for_at]

/-- C6 witness: the fallbacks evaluated on the malformed date `"2025-13-40"`
and the malformed time `"25:99"`. -/
theorem compose_malformed_fallback_witness :
    (∃ u v, format_email { cuisine := "mexican", partySize := JVal.null,
                           date := some "2025-13-40", time := some "25:99", results := [] } =
      u ++ "2025-13-40" ++ v) ∧
    (∃ u v, format_email { cuisine := "mexican", partySize := JVal.null,
                           date := some "2025-13-40", time := some "25:99", results := [] } =
      u ++ ("at " ++ "25:99") ++ v) :=
  ⟨(compose_malformed_fallback _ "2025-13-40" "25:99").1 rfl (by decide) (by decide),
   (compose_malformed_fallback _ "2025-13-40" "25:99").2 rfl (by decide) (by decide)⟩

theorem firstOccurrences_nil : firstOccurrences [] = [] := by
  simp [firstOccurrences]

theorem firstOccurrences_cons (x : String) (xs : List String) :
    firstOccurrences (x :: xs) = x :: firstOccurrences (xs.filter (fun a => a != x)) := by
  simp [firstOccurrences]

theorem dedupAux_eq_firstOccurrences (l : List String) (seen : List String) :
    dedupAux l seen = firstOccurrences (l.filter (fun a => !memB a seen)) := by
  induction l generalizing seen with
  | nil => simp [dedupAux, firstOccurrences_nil]
  | cons x xs ih =>
    by_cases hx : memB x seen
    · have hfilter : (x :: xs).filter (fun a => !memB a seen) =
          xs.filter (fun a => !memB a seen) := by
        simp [List.filter_cons, hx]
      rw [hfilter]
      simp only [dedupAux, hx, if_true]
      exact ih seen
    · have hfilter : (x :: xs).filter (fun a => !memB a seen) =
          x :: xs.filter (fun a => !memB a seen) := by
        simp [List.filter_cons, hx]
      rw [hfilter, firstOccurrences_cons]
      simp only [dedupAux, hx, if_false]
      have hff : (xs.filter (fun a => !memB a seen)).filter (fun a => a != x) =
          xs.filter (fun a => !memB a (x :: seen)) := by
        rw [List.filter_filter]
        apply List.filter_congr
        intro a _
        show ((a != x) && !memB a seen) = !memB a (x :: seen)
        show ((a != x) && !memB a seen) = !(a == x || memB a seen)
        rw [Bool.not_or]
        rfl
      rw [hff]
      exact congrArg (x :: ·) (ih (x :: seen))

theorem dedupKeepFirst_eq_firstOccurrences (l : List String) :
    dedupKeepFirst l = firstOccurrences l := by
  unfold dedupKeepFirst
  rw [dedupAux_eq_firstOccurrences]
  have : l.filter (fun a => !memB a []) = l := by
    apply List.filter_eq_self.mpr
    intro a _
    rfl
  rw [this]

theorem firstOccurrences_sublist (l : List String) :
    List.Sublist (firstOccurrences l) l := by
  induction l using firstOccurrences.induct with
  | case1 => simp [firstOccurrences_nil]
  | case2 x xs ih =>
    rw [firstOccurrences_cons]
    exact List.Sublist.cons₂ x (ih.trans (List.filter_sublist xs))

theorem firstOccurrences_nodup (l : List String) :
    (firstOccurrences l).Nodup := by
  induction l using firstOccurrences.induct with
  | case1 => simp [firstOccurrences_nil]
  | case2 x xs ih =>
    rw [firstOccurrences_cons]
    refine List.nodup_cons.mpr ⟨?_, ih⟩
    intro hmem
    have hmem2 := (firstOccurrences_sublist _).subset hmem
    have := (List.mem_filter.mp hmem2).2
    simp at this

/-- C4: the sampling stage deduplicates the identifiers returned by the
search index, keeping for each identifier its first occurrence in returned order
(it equals the specification-side `firstOccurrences`), produces no
duplicates, is bounded by the configured result count, is a subsequence of
the sequence the index returned, and the index itself is queried for twice
the configured result count. -/
theorem sampling_dedupes_and_bounds (ids : List String) (n : Nat) :
    sampleStage ids n = (firstOccurrences ids).take n ∧
    (sampleStage ids n).Nodup ∧
    (sampleStage ids n).length ≤ n ∧
    List.Sublist (sampleStage ids n) ids ∧
    osRequestSize n = 2 * n := by
  have heq : sampleStage ids n = (firstOccurrences ids).take n := by
    unfold sampleStage
    rw [dedupKeepFirst_eq_firstOccurrences]
  refine ⟨heq, ?_, ?_, ?_, Nat.mul_comm n 2⟩
  · rw [heq]
    exact (firstOccurrences_nodup ids).sublist (List.take_sublist n _)
  · rw [heq]
    calc ((firstOccurrences ids).take n).length
        = min n (firstOccurrences ids).length := List.length_take n _
      _ ≤ n := Nat.min_le_left n _
  · rw [heq]
    exact (List.take_sublist n _).trans (firstOccurrences_sublist ids)

/-- A concrete environment whose JSON decoder rejects every body (modelling
`json.loads` raising on a non-JSON string). -/
def parseFailEnv : Env :=
  { numResults := 3, jsonParse := fun _ => none,
    search := fun _ _ => Except.ok [], storeUp := true,
    store := fun _ => none, send := fun _ _ _ => SesResult.ok "mid-0" }

/-- A concrete environment whose JSON decoder yields a payload with a
whitespace-only cuisine. -/
def blankCuisineEnv : Env :=
  { numResults := 3,
    jsonParse := fun _ => some { cuisine := some "   ", email := some "a@b.com",
                                 num_people := JVal.null, dining_date := none,
                                 dining_time := none },
    search := fun _ _ => Except.ok [], storeUp := true,
    store := fun _ => none, send := fun _ _ _ => SesResult.ok "mid-0" }

/-- C1 counterexample: a message whose body fails JSON parsing is classified
as a transient failure and `process_one_message` returns `False`, so the
message is left unacknowledged for retry — not `DiscardMalformed`, not
acknowledged (LF2.py line 159, against the claim and against spec section
4.6 `ParseFailed => DiscardMalformed`). -/
theorem unparseable_body_not_discarded :
    processOutcome parseFailEnv { body := some "this is not json", receiptHandle := "rh-1", crashes := false } =
      Outcome.TransientFailure ∧
    process_one_message parseFailEnv { body := some "this is not json", receiptHandle := "rh-1", crashes := false } =
      false :=
  ⟨rfl, rfl⟩

/-- C1 amended: only a payload that parses as JSON but has an empty-after-
trimming cuisine or email is discarded as malformed (acknowledged); a body
that fails JSON parsing is treated as a transient failure and the message is
left unacknowledged for retry. -/
theorem malformed_payload_policy (env : Env) (msg : Msg) (p : Payload) :
    (env.jsonParse (rawBody msg) = none →
      processOutcome env msg = Outcome.TransientFailure ∧
      process_one_message env msg = false) ∧
    (env.jsonParse (rawBody msg) = some p →
      pyStrip (p.cuisine.getD "") = "" ∨ pyStrip (p.email.getD "") = "" →
      processOutcome env msg = Outcome.DiscardMalformed ∧
      process_one_message env msg = true) := by
  constructor
  · intro h
    constructor
    · unfold processOutcome
      rw [h]
    · unfold process_one_message processOutcome
      rw [h]
      rfl
  · intro h hemp
    have hout : processOutcome env msg = Outcome.DiscardMalformed := by
      unfold processOutcome
      rw [h]
      have hcond : (pyLower (pyStrip (p.cuisine.getD "")) = "" || pyStrip (p.email.getD "") = "") = true := by
        rcases hemp with hc | he
        · have hl : pyLower (pyStrip (p.cuisine.getD "")) = "" := by
            rw [hc]
            rfl
          simp [hl]
        · simp [he]
      simp only [hcond, if_true]
    exact ⟨hout, by unfold process_one_message; rw [hout]; rfl⟩

/-- C1 amended, witness: the unparseable-body half evaluated in
`parseFailEnv` and the blank-cuisine half evaluated in `blankCuisineEnv`. -/
theorem malformed_payload_policy_witness :
    (processOutcome parseFailEnv { body := some "\x7bbroken", receiptHandle := "rh-2", crashes := false } =
        Outcome.TransientFailure ∧
      process_one_message parseFailEnv { body := some "\x7bbroken", receiptHandle := "rh-2", crashes := false } =
        false) ∧
    (processOutcome blankCuisineEnv { body := some "x", receiptHandle := "rh-3", crashes := false } =
        Outcome.DiscardMalformed ∧
      process_one_message blankCuisineEnv { body := some "x", receiptHandle := "rh-3", crashes := false } =
        true) :=
  ⟨(malformed_payload_policy parseFailEnv _
      { cuisine := none, email := none, num_people := JVal.null,
        dining_date := none, dining_time := none }).1 rfl,
   (malformed_payload_policy blankCuisineEnv _
      { cuisine := some "   ", email := some "a@b.com", num_people := JVal.null,
        dining_date := none, dining_time := none }).2 rfl (Or.inl (by decide))⟩

/-- C2: the handler deletes exactly the messages whose processing ends with
`ok = True`, i.e. those with outcome `Delivered`, `DiscardMalformed` or
`DiscardNoResults` and no uncaught exception; transient failures and crashed
messages are left unacknowledged; the handler itself always returns normally
with the count of acknowledged messages. -/
theorem handler_ack_policy (env : Env) (msgs : List Msg)
    (hlen : msgs.length ≤ maxBatchSize) :
    (lambda_handler env msgs).ok = true ∧
    (lambda_handler env msgs).deleted =
      (msgs.filter (handlerAcks env)).map (fun m => m.receiptHandle) ∧
    (lambda_handler env msgs).processed = (msgs.filter (handlerAcks env)).length ∧
    (∀ m : Msg, handlerAcks env m = true ↔
      (m.crashes = false ∧ (processOutcome env m = Outcome.Delivered ∨
        processOutcome env m = Outcome.DiscardMalformed ∨
        processOutcome env m = Outcome.DiscardNoResults))) := by
  refine ⟨?_, ?_, ?_, ?_⟩
  · unfold lambda_handler
    split <;> rfl
  · unfold lambda_handler
    split
    · rename_i hempty
      rw [List.isEmpty_iff.mp hempty]
      rfl
    · rfl
  · unfold lambda_handler
    split
    · rename_i hempty
      rw [List.isEmpty_iff.mp hempty]
      rfl
    · rfl
  · intro m
    unfold handlerAcks process_one_message
    cases hc : m.crashes <;> cases ho : processOutcome env m <;>
      simp [ho, hc, ackOutcome]

/-- C2 witness: the acknowledgment contract evaluated on a two-message batch
(one discarded as malformed and acknowledged, one crashed and left). -/
theorem handler_ack_policy_witness :
    (lambda_handler blankCuisineEnv
        [{ body := some "x", receiptHandle := "rh-a", crashes := false },
         { body := some "x", receiptHandle := "rh-b", crashes := true }]).ok = true ∧
    (lambda_handler blankCuisineEnv
        [{ body := some "x", receiptHandle := "rh-a", crashes := false },
         { body := some "x", receiptHandle := "rh-b", crashes := true }]).deleted =
      (([{ body := some "x", receiptHandle := "rh-a", crashes := false },
          { body := some "x", receiptHandle := "rh-b", crashes := true }] : List Msg).filter
        (handlerAcks blankCuisineEnv)).map (fun m => m.receiptHandle) ∧
    (lambda_handler blankCuisineEnv
        [{ body := some "x", receiptHandle := "rh-a", crashes := false },
         { body := some "x", receiptHandle := "rh-b", crashes := true }]).processed =
      (([{ body := some "x", receiptHandle := "rh-a", crashes := false },
          { body := some "x", receiptHandle := "rh-b", crashes := true }] : List Msg).filter
        (handlerAcks blankCuisineEnv)).length ∧
    (∀ m : Msg, handlerAcks blankCuisineEnv m = true ↔
      (m.crashes = false ∧ (processOutcome blankCuisineEnv m = Outcome.Delivered ∨
        processOutcome blankCuisineEnv m = Outcome.DiscardMalformed ∨
        processOutcome blankCuisineEnv m = Outcome.DiscardNoResults))) :=
  handler_ack_policy blankCuisineEnv
    [{ body := some "x", receiptHandle := "rh-a", crashes := false },
     { body := some "x", receiptHandle := "rh-b", crashes := true }] (by decide)

theorem pyDictInsert_fresh (d : List (Option String × EntityRecord)) (k : Option String)
    (v : EntityRecord) (h : d.any (fun p => p.1 = k) = false) :
    pyDictInsert d k v = d ++ [(k, v)] := by
  simp [pyDictInsert, h]

theorem ddbBuildOut_go (items : List DdbItem) (acc : List (Option String × EntityRecord))
    (hfresh : ∀ it ∈ items, acc.any (fun p => p.1 = it.businessID) = false)
    (hnd : (items.map (fun it => it.businessID)).Nodup) :
    items.foldl (fun out it =>
        pyDictInsert out it.businessID ⟨it.businessID, it.name, it.address⟩) acc =
      acc ++ items.map (fun it =>
        (it.businessID, (⟨it.businessID, it.name, it.address⟩ : EntityRecord))) := by
  induction items generalizing acc with
  | nil => simp
  | cons it rest ih =>
    simp only [List.foldl_cons]
    rw [pyDictInsert_fresh _ _ _ (hfresh it (List.mem_cons_self _ _)),
        ih _ ?_ (List.nodup_cons.mp hnd).2]
    · simp
    · intro it2 hit2
      rw [List.any_append]
      rw [hfresh it2 (List.mem_cons_of_mem _ hit2)]
      simp only [Bool.false_or, List.any_cons, List.any_nil, Bool.or_false]
      have hne : it.businessID ≠ it2.businessID := by
        intro heq
        have h1 : it.businessID ∈ List.map (fun i => i.businessID) rest := by
          rw [heq]
          exact List.mem_map_of_mem (fun i => i.businessID) hit2
        exact (List.nodup_cons.mp hnd).1 h1
      simp [hne]

theorem batchGetItems_keys (store : DdbStore) (l : List String) :
    (batchGetItems store l).map (fun it => it.businessID) =
      (l.filter (fun bid => (store bid).isSome)).map some := by
  induction l with
  | nil => rfl
  | cons bid rest ih =>
    unfold batchGetItems at ih ⊢
    cases h : store bid with
    | none => simp [List.filterMap_cons, h, List.filter_cons, ih]
    | some p => simp [List.filterMap_cons, h, List.filter_cons, ih]

theorem batchGetItems_keys_nodup (store : DdbStore) (l : List String) (h : l.Nodup) :
    ((batchGetItems store l).map (fun it => it.businessID)).Nodup := by
  rw [batchGetItems_keys]
  exact (h.filter _).map (Option.some_injective _)

theorem lookup_batch_pairs (store : DdbStore) (l : List String) (hnd : l.Nodup) (bid : String) :
    ((batchGetItems store l).map (fun it =>
        (it.businessID, (⟨it.businessID, it.name, it.address⟩ : EntityRecord)))).lookup (some bid) =
      if bid ∈ l then (store bid).map (fun p => ⟨some bid, p.1, p.2⟩) else none := by
  induction l with
  | nil => simp [batchGetItems]
  | cons i t ih =>
    have hnd2 := List.nodup_cons.mp hnd
    unfold batchGetItems at ih ⊢
    cases hs : store i with
    | none =>
      rw [List.filterMap_cons_none (by simp [hs])]
      by_cases hbi : bid = i
      · subst hbi
        rw [ih hnd2.2]
        simp [hs, hnd2.1]
      · rw [ih hnd2.2]
        simp [List.mem_cons, hbi]
    | some p =>
      simp only [List.filterMap_cons, hs, Option.map_some']
      by_cases hbi : bid = i
      · subst hbi
        simp only [List.map_cons, List.lookup_cons, beq_self_eq_true]
        simp [hs]
      · have hbeq : ((some bid == some i) = false) := by
          simp [beq_eq_false_iff_ne, hbi]
        simp only [List.map_cons, List.lookup_cons, hbeq]
        rw [ih hnd2.2]
        simp [List.mem_cons, hbi]

/-- C8: for a non-empty identifier set, `ddb_get_many` performs exactly one
batched store call and returns a mapping containing exactly the requested
identifiers found in the store, each mapped to its projected record;
identifiers absent from the store are silently omitted, and on a successful
transport the function is total for every store state (missed lookups are
never an error). -/
theorem ddb_get_many_exact_found (store : DdbStore) (ids : List String) (bid : String)
    (hne : ids ≠ []) (hnd : ids.Nodup) :
    (ddb_get_many store ids).1 = 1 ∧
    ((ddb_get_many store ids).2).lookup (some bid) =
      (if bid ∈ ids then (store bid).map (fun p => ⟨some bid, p.1, p.2⟩) else none) := by
  have hne2 : ids.isEmpty = false := by
    cases ids with
    | nil => exact absurd rfl hne
    | cons a t => rfl
  constructor
  · simp [ddb_get_many, hne2]
  · have hbuild := ddbBuildOut_go (batchGetItems store ids) []
      (fun it _ => rfl) (batchGetItems_keys_nodup store ids hnd)
    simp only [ddb_get_many, hne2, Bool.false_eq_true, if_false, ddbBuildOut]
    rw [hbuild, List.nil_append]
    exact lookup_batch_pairs store ids hnd bid

/-- C8 witness: evaluated on a two-identifier request where only one
identifier resolves. -/
theorem ddb_get_many_exact_found_witness :
    ((ddb_get_many
        (fun bid => if bid = "id1" then some (some "Trattoria", some "1 Main St") else none)
        ["id1", "id2"]).1 = 1 ∧
     ((ddb_get_many
        (fun bid => if bid = "id1" then some (some "Trattoria", some "1 Main St") else none)
        ["id1", "id2"]).2).lookup (some "id1") =
      (if "id1" ∈ ["id1", "id2"] then
        ((fun bid => if bid = "id1" then some (some "Trattoria", some "1 Main St") else none) "id1").map
          (fun p => ⟨some "id1", p.1, p.2⟩)
      else none)) :=
  ddb_get_many_exact_found
    (fun bid => if bid = "id1" then some (some "Trattoria", some "1 Main St") else none)
    ["id1", "id2"] "id1" (by decide) (by decide)

end LF2
